import Mathlib

/-!
# Formal model of the flashbook summary-cache core

A shallow embedding, in Lean 4, of the content-addressed response cache and
generation orchestration of the flashbook backend:

* `backend/src/core/schemas.py` — request/response data model and the
  `text_chunk` validator;
* `backend/src/services/cache_service.py` — `CacheService` (key derivation,
  get/store/invalidate/clear/stats);
* `backend/src/services/gemini_client.py` — `_parse_gemini_response`
  (normalization of the generator's raw output);
* `backend/src/api/generate_summary.py` — `_create_fallback_response` and the
  `generate_summary` orchestrator.

Python dictionaries are modelled as association lists (first binding wins,
insertion order preserved), `datetime.utcnow()` as an explicit `now : Nat`
parameter threaded through the stateful operations, and `hashlib.sha256` by a
full executable SHA-256 over the UTF-8 bytes of the input string.
-/

set_option maxHeartbeats 1000000

/-! ## Python string primitives -/

/-- Whitespace characters recognised by Python's `str.strip` (ASCII subset). -/
def isPySpace (c : Char) : Bool :=
  c = ' ' || c = '\t' || c = '\n' || c = '\x0d' || c = '\x0b' || c = '\x0c'

/-- Python `str.strip()` on the underlying character list. -/
def pyStripList (l : List Char) : List Char :=
  ((l.dropWhile isPySpace).reverse.dropWhile isPySpace).reverse

/-- Python `str.strip()`. -/
def pyStrip (s : String) : String :=
  String.mk (pyStripList s.data)

/-- Python `a or b` for strings: the empty string is falsy. -/
def pyOrStr (a b : String) : String :=
  if a = "" then b else a

/-- Python `a or b` where `a` is `Optional[str]`: `None` and `""` are falsy. -/
def pyOrOpt (a : Option String) (b : String) : String :=
  match a with
  | none => b
  | some s => if s = "" then b else s

/-- Python `a or b` for lists: the empty list is falsy. -/
def pyOrList (a b : List String) : List String :=
  if a = [] then b else a

/-! ## Python dict model: association lists, first binding wins -/

/-- `d.get(k)` / `d[k]` lookup. -/
def dictGet {β : Type} : List (String × β) → String → Option β
  | [], _ => none
  | (k', v) :: rest, k => if k' = k then some v else dictGet rest k

/-- `d[k] = v`: overwrite the existing binding in place, else append. -/
def dictInsert {β : Type} : List (String × β) → String → β → List (String × β)
  | [], k, v => [(k, v)]
  | (k', v') :: rest, k, v =>
      if k' = k then (k, v) :: rest else (k', v') :: dictInsert rest k v

/-- `del d[k]`: remove the binding of `k` if present. -/
def dictDelete {β : Type} : List (String × β) → String → List (String × β)
  | [], _ => []
  | (k', v') :: rest, k =>
      if k' = k then rest else (k', v') :: dictDelete rest k

/-- Well-formedness of a dict model: keys are pairwise distinct, as they are in
a real Python `dict`. -/
def DictWF {β : Type} (d : List (String × β)) : Prop :=
  (d.map Prod.fst).Nodup

/-! ## SHA-256 (`hashlib.sha256(...).hexdigest()`)

Executable SHA-256 over byte lists, bytes and words as `Nat` reduced mod
`2^8` / `2^32`. -/

/-- Right rotation of a 32-bit word. -/
def rotr32 (n x : Nat) : Nat :=
  ((x >>> n) ||| (x <<< (32 - n))) % 4294967296

/-- SHA-256 small sigma 0. -/
def sig0 (x : Nat) : Nat := rotr32 7 x ^^^ rotr32 18 x ^^^ (x >>> 3)

/-- SHA-256 small sigma 1. -/
def sig1 (x : Nat) : Nat := rotr32 17 x ^^^ rotr32 19 x ^^^ (x >>> 10)

/-- SHA-256 big Sigma 0. -/
def bigSig0 (x : Nat) : Nat := rotr32 2 x ^^^ rotr32 13 x ^^^ rotr32 22 x

/-- SHA-256 big Sigma 1. -/
def bigSig1 (x : Nat) : Nat := rotr32 6 x ^^^ rotr32 11 x ^^^ rotr32 25 x

/-- The 64 SHA-256 round constants. -/
def shaK : List Nat :=
  [1116352408, 1899447441, 3049323471, 3921009573, 961987163, 1508970993,
   2453635748, 2870763221, 3624381080, 310598401, 607225278, 1426881987,
   1925078388, 2162078206, 2614888103, 3248222580, 3835390401, 4022224774,
   264347078, 604807628, 770255983, 1249150122, 1555081692, 1996064986,
   2554220882, 2821834349, 2952996808, 3210313671, 3336571891, 3584528711,
   113926993, 338241895, 666307205, 773529912, 1294757372, 1396182291,
   1695183700, 1986661051, 2177026350, 2456956037, 2730485921, 2820302411,
   3259730800, 3345764771, 3516065817, 3600352804, 4094571909, 275423344,
   430227734, 506948616, 659060556, 883997877, 958139571, 1322822218,
   1537002063, 1747873779, 1955562222, 2024104815, 2227730452, 2361852424,
   2428436474, 2756734187, 3204031479, 3329325298]

/-- Working state of the SHA-256 compression function: eight 32-bit words. -/
structure Sha8 where
  a : Nat
  b : Nat
  c : Nat
  d : Nat
  e : Nat
  f : Nat
  g : Nat
  h : Nat
  deriving Repr, DecidableEq

/-- The SHA-256 initial hash value. -/
def shaH0 : Sha8 :=
  ⟨1779033703, 3144134277, 1013904242, 2773480762,
   1359893119, 2600822924, 528734635, 1541459225⟩

/-- A big-endian `Nat` as exactly eight bytes. -/
def bytesBE8 (n : Nat) : List Nat :=
  [n >>> 56 % 256, n >>> 48 % 256, n >>> 40 % 256, n >>> 32 % 256,
   n >>> 24 % 256, n >>> 16 % 256, n >>> 8 % 256, n % 256]

/-- SHA-256 padding: append `0x80`, zeros to 56 mod 64, then the bit length. -/
def shaPad (msg : List Nat) : List Nat :=
  let z := (119 - msg.length % 64) % 64
  msg ++ [128] ++ List.replicate z 0 ++ bytesBE8 (8 * msg.length)

/-- Split a byte list into 64-byte chunks. -/
def chunk64 : List Nat → List (List Nat)
  | [] => []
  | b :: rest => ((b :: rest).take 64) :: chunk64 ((b :: rest).drop 64)
termination_by l => l.length
decreasing_by simp [List.drop]; omega

/-- Assemble big-endian 32-bit words from groups of four bytes. -/
def toWords : List Nat → List Nat
  | b0 :: b1 :: b2 :: b3 :: rest =>
      (b0 * 16777216 + b1 * 65536 + b2 * 256 + b3) :: toWords rest
  | _ => []

/-- One extension step of the message schedule. -/
def extendStep (ws : List Nat) : List Nat :=
  let n := ws.length
  let w16 := ws.getD (n - 16) 0
  let w15 := ws.getD (n - 15) 0
  let w7 := ws.getD (n - 7) 0
  let w2 := ws.getD (n - 2) 0
  ws ++ [(w16 + sig0 w15 + w7 + sig1 w2) % 4294967296]

/-- Iterate the extension step. -/
def extendN : Nat → List Nat → List Nat
  | 0, ws => ws
  | n + 1, ws => extendN n (extendStep ws)

/-- The 64-word message schedule of one block. -/
def shaSchedule (block : List Nat) : List Nat :=
  extendN 48 (toWords block)

/-- One SHA-256 compression round, fed the pair (round constant, word). -/
def shaRound (s : Sha8) (kw : Nat × Nat) : Sha8 :=
  let ch := (s.e &&& s.f) ^^^ ((s.e ^^^ 4294967295) &&& s.g)
  let temp1 := (s.h + bigSig1 s.e + ch + kw.1 + kw.2) % 4294967296
  let maj := (s.a &&& s.b) ^^^ (s.a &&& s.c) ^^^ (s.b &&& s.c)
  let temp2 := (bigSig0 s.a + maj) % 4294967296
  ⟨(temp1 + temp2) % 4294967296, s.a, s.b, s.c,
   (s.d + temp1) % 4294967296, s.e, s.f, s.g⟩

/-- Process one 64-byte block. -/
def shaBlock (s : Sha8) (block : List Nat) : Sha8 :=
  let t := (shaK.zip (shaSchedule block)).foldl shaRound s
  ⟨(s.a + t.a) % 4294967296, (s.b + t.b) % 4294967296,
   (s.c + t.c) % 4294967296, (s.d + t.d) % 4294967296,
   (s.e + t.e) % 4294967296, (s.f + t.f) % 4294967296,
   (s.g + t.g) % 4294967296, (s.h + t.h) % 4294967296⟩

/-- SHA-256 of a byte list: the eight words of the digest. -/
def sha256Words (msg : List Nat) : Sha8 :=
  (chunk64 (shaPad msg)).foldl shaBlock shaH0

/-- A hex digit character. -/
def hexDigit (n : Nat) : Char :=
  if n < 10 then Char.ofNat (48 + n) else Char.ofNat (87 + n)

/-- A 32-bit word as eight lowercase hex characters. -/
def word8hex (w : Nat) : String :=
  String.mk [hexDigit (w / 268435456 % 16), hexDigit (w / 16777216 % 16),
    hexDigit (w / 1048576 % 16), hexDigit (w / 65536 % 16),
    hexDigit (w / 4096 % 16), hexDigit (w / 256 % 16),
    hexDigit (w / 16 % 16), hexDigit (w % 16)]

/-- The 64-character hex digest of an eight-word hash state. -/
def digestHex (s : Sha8) : String :=
  word8hex s.a ++ word8hex s.b ++ word8hex s.c ++ word8hex s.d ++
  word8hex s.e ++ word8hex s.f ++ word8hex s.g ++ word8hex s.h

/-- The UTF-8 bytes of a string, as `str.encode()` produces them. -/
def strBytes (s : String) : List Nat :=
  s.toUTF8.toList.map (fun b => b.toNat)

/-- `hashlib.sha256(s.encode()).hexdigest()`. -/
def sha256hex (s : String) : String :=
  digestHex (sha256Words (strBytes s))

/-! ## Schemas (`backend/src/core/schemas.py`) -/

/-- `SummaryMode`: available summary generation modes. -/
inductive SummaryMode where
  | chapter
  | concept
  | law
  deriving Repr, DecidableEq

/-- The string value of a `SummaryMode` member. -/
def SummaryMode.value : SummaryMode → String
  | .chapter => "chapter"
  | .concept => "concept"
  | .law => "law"

/-- `BlockType`: types of content blocks in the output. -/
inductive BlockType where
  | scene
  | reveal
  | emotion
  | tension
  | insight
  | quote
  | visual
  | lyricScroll
  | coreIdea
  | explanation
  | example
  | takeaway
  | nuance
  | contrast
  | reflection
  deriving Repr, DecidableEq

/-- The string value of a `BlockType` member. -/
def BlockType.value : BlockType → String
  | .scene => "scene"
  | .reveal => "reveal"
  | .emotion => "emotion"
  | .tension => "tension"
  | .insight => "insight"
  | .quote => "quote"
  | .visual => "visual"
  | .lyricScroll => "lyric_scroll"
  | .coreIdea => "core_idea"
  | .explanation => "explanation"
  | .example => "example"
  | .takeaway => "takeaway"
  | .nuance => "nuance"
  | .contrast => "contrast"
  | .reflection => "reflection"

/-- `BlockType(s)`: the enum member whose value is `s`, if any. This is the
lookup Python performs when constructing `BlockType(block.type)`; a `none`
result corresponds to the `ValueError` branch. -/
def blockTypeOfString (s : String) : Option BlockType :=
  if s = "scene" then some .scene
  else if s = "reveal" then some .reveal
  else if s = "emotion" then some .emotion
  else if s = "tension" then some .tension
  else if s = "insight" then some .insight
  else if s = "quote" then some .quote
  else if s = "visual" then some .visual
  else if s = "lyric_scroll" then some .lyricScroll
  else if s = "core_idea" then some .coreIdea
  else if s = "explanation" then some .explanation
  else if s = "example" then some .example
  else if s = "takeaway" then some .takeaway
  else if s = "nuance" then some .nuance
  else if s = "contrast" then some .contrast
  else if s = "reflection" then some .reflection
  else none

/-- `SummaryRequest`: request body for POST `/generateSummary`. -/
structure SummaryRequest where
  book_id : Option String
  chapter_title : Option String
  text_chunk : String
  mode : SummaryMode
  prev_context : Option String
  next_context : Option String
  deriving Repr, DecidableEq

/-- The `validate_text_chunk` field validator: strip the chunk, reject it when
the stripped form has fewer than 100 characters, otherwise replace the field
with the stripped form. -/
def validate_text_chunk (v : String) : Except String String :=
  let stripped := pyStrip v
  if stripped.length < 100 then
    Except.error "text_chunk must contain at least 100 meaningful characters"
  else
    Except.ok stripped

/-- `ContentBlock`: a single content block in the summary output. -/
structure ContentBlock where
  type : BlockType
  slide_title : String
  headline : String
  body : String
  text : String
  lyric_lines : List String
  image_hint : Bool
  image_prompt : String
  deriving Repr, DecidableEq

/-- `GenerationNotes`: metadata about the generation process. -/
structure GenerationNotes where
  compression_applied : Bool
  long_chapter_handled : Bool
  context_used_only_for_continuity : Bool
  deriving Repr, DecidableEq

/-- `SummaryResponse`: response body for POST `/generateSummary`. -/
structure SummaryResponse where
  unit_title : String
  blocks : List ContentBlock
  visual_slots_used : Nat
  cached : Bool
  notes : GenerationNotes
  deriving Repr, DecidableEq

/-- `GeminiOutputBlock`: schema for parsing Gemini's raw block output. -/
structure GeminiOutputBlock where
  type : String
  slide_title : String
  headline : String
  body : String
  text : String
  lyric_lines : List String
  image_hint : Bool
  image_prompt : String
  deriving Repr, DecidableEq

/-- `GeminiOutput`: schema for parsing Gemini's full response. The `notes`
dict is modelled as an association list of recognised boolean entries. -/
structure GeminiOutput where
  unit_title : String
  blocks : List GeminiOutputBlock
  visual_slots_used : Nat
  notes : List (String × Bool)
  deriving Repr, DecidableEq

/-! ## Cache service (`backend/src/services/cache_service.py`) -/

/-- `CacheEntry`: a single cache entry with metadata. Timestamps are seconds
as `Nat`; the stored `data` dict is the dumped `SummaryResponse`. -/
structure CacheEntry where
  data : SummaryResponse
  created_at : Nat
  expires_at : Nat
  hit_count : Nat
  deriving Repr, DecidableEq

/-- The mutable state of a `CacheService` instance: the key-to-entry dict and
the four statistics counters. -/
structure CacheState where
  cache : List (String × CacheEntry)
  hits : Nat
  misses : Nat
  stores : Nat
  evictions : Nat
  deriving Repr, DecidableEq

/-- A freshly constructed `CacheService`. -/
def CacheState.init : CacheState := ⟨[], 0, 0, 0, 0⟩

namespace CacheService

/-- The pipe-joined key material of `_generate_key`: book id (or "none"),
chapter title (or "none"), the text chunk windowed to first 500 + last 500
characters when longer than 1000, and the mode value. -/
def keyString (request : SummaryRequest) : String :=
  String.intercalate "|"
    [request.book_id.getD "none",
     request.chapter_title.getD "none",
     if request.text_chunk.length > 1000 then
       request.text_chunk.take 500 ++
         request.text_chunk.drop (request.text_chunk.length - 500)
     else request.text_chunk,
     request.mode.value]

/-- `_generate_key`: first 32 hex characters of the SHA-256 digest of the
pipe-joined components. -/
def generate_key (request : SummaryRequest) : String :=
  (sha256hex (keyString request)).take 32

/-- `_is_expired`, at explicit time `now`. -/
def is_expired (now : Nat) (entry : CacheEntry) : Bool :=
  now > entry.expires_at

/-- `_cleanup_expired`: remove every expired entry, incrementing the eviction
counter once per deletion. -/
def cleanup_expired (now : Nat) (s : CacheState) : CacheState :=
  { s with
    cache := s.cache.filter (fun kv => ! is_expired now kv.2),
    evictions := s.evictions + (s.cache.filter (fun kv => is_expired now kv.2)).length }

/-- `get`: retrieve a cached response if available and not expired. Returns
the response (with `cached` forced true on the returned copy) and the updated
state. -/
def get (now : Nat) (request : SummaryRequest) (s : CacheState) :
    Option SummaryResponse × CacheState :=
  let key := generate_key request
  match dictGet s.cache key with
  | none => (none, { s with misses := s.misses + 1 })
  | some entry =>
    if is_expired now entry then
      (none, { s with
        cache := dictDelete s.cache key,
        misses := s.misses + 1,
        evictions := s.evictions + 1 })
    else
      (some { entry.data with cached := true },
       { s with
         cache := dictInsert s.cache key { entry with hit_count := entry.hit_count + 1 },
         hits := s.hits + 1 })

/-- `store`: store a response under the request's key with
`expires_at = now + ttl_seconds` and `cached=false` baked into the stored
payload; every 100th store triggers `_cleanup_expired`. -/
def store (now ttl_seconds : Nat) (request : SummaryRequest)
    (response : SummaryResponse) (s : CacheState) : CacheState :=
  let key := generate_key request
  let s1 : CacheState :=
    { s with
      cache := dictInsert s.cache key
        { data := { response with cached := false },
          created_at := now,
          expires_at := now + ttl_seconds,
          hit_count := 0 },
      stores := s.stores + 1 }
  if s1.stores % 100 = 0 then cleanup_expired now s1 else s1

/-- `invalidate`: remove one entry if present; true when it was found. -/
def invalidate (request : SummaryRequest) (s : CacheState) : Bool × CacheState :=
  let key := generate_key request
  match dictGet s.cache key with
  | some _ => (true, { s with cache := dictDelete s.cache key })
  | none => (false, s)

/-- `clear`: remove all entries, returning the prior count. -/
def clear (s : CacheState) : Nat × CacheState :=
  (s.cache.length, { s with cache := [] })

end CacheService

/-- `CACHE_TTL_SECONDS` default from `backend/src/core/config.py`. -/
def defaultTTL : Nat := 86400

/-! ## Cache statistics (`CacheService.get_stats`) -/

/-- Python's banker's rounding (`round`) to an integer, on exact rationals. -/
def roundHalfEven (q : ℚ) : ℤ :=
  let f := Int.floor q
  let r := q - f
  if r < 1/2 then f
  else if 1/2 < r then f + 1
  else if f % 2 = 0 then f else f + 1

/-- Python `round(q, 2)`. -/
def pyRound2 (q : ℚ) : ℚ :=
  (roundHalfEven (q * 100) : ℚ) / 100

/-- The stats dict returned by `get_stats`. -/
structure CacheStats where
  hits : Nat
  misses : Nat
  stores : Nat
  evictions : Nat
  entries : Nat
  hit_rate_percent : ℚ
  deriving Repr, DecidableEq

/-- `get_stats`: the four counters, the entry count, and the hit rate as a
percentage rounded to two decimals (0 when no get requests yet). -/
def CacheService.get_stats (s : CacheState) : CacheStats :=
  let total_requests := s.hits + s.misses
  let hit_rate : ℚ :=
    if total_requests > 0 then (s.hits : ℚ) / (total_requests : ℚ) * 100 else 0
  { hits := s.hits,
    misses := s.misses,
    stores := s.stores,
    evictions := s.evictions,
    entries := s.cache.length,
    hit_rate_percent := pyRound2 hit_rate }

/-! ## Response normalizer (`_parse_gemini_response`, post-parse section)

The JSON decode and pydantic parse of the raw text are not modelled; the
normalization below starts from a successfully parsed `GeminiOutput`, which is
the loop at lines 146-197 of `gemini_client.py`. -/

/-- The conversion applied to one raw block once the visual-slot decision
`allowed` (source: `block.image_hint and visual_count < 2`) has been made. -/
def normOne (block : GeminiOutputBlock) (allowed : Bool) : ContentBlock :=
  let body_text := pyOrStr block.body (pyOrStr block.text "")
  { type := (blockTypeOfString block.type).getD BlockType.insight,
    slide_title := pyOrStr block.slide_title ((block.type.toUpper).replace "_" " "),
    headline := pyOrStr block.headline "",
    body := body_text,
    text := body_text,
    lyric_lines := pyOrList block.lyric_lines [],
    image_hint := allowed,
    image_prompt := if allowed then pyOrStr block.image_prompt "" else "" }

/-- The block loop of `_parse_gemini_response`: threads the running
`visual_count` through the (already truncated) block list and returns the
converted blocks together with the final count. -/
def normBlocks : List GeminiOutputBlock → Nat → List ContentBlock × Nat
  | [], visual_count => ([], visual_count)
  | block :: rest, visual_count =>
    if block.image_hint = true ∧ visual_count < 2 then
      let r := normBlocks rest (visual_count + 1)
      (normOne block true :: r.1, r.2)
    else
      let r := normBlocks rest visual_count
      (normOne block false :: r.1, r.2)

/-- `_parse_gemini_response` after a successful structural parse: truncate to
8 blocks, convert each block, cap the visual slots, and assemble the
`SummaryResponse`. -/
def parseGeminiResponse (parsed : GeminiOutput) (request : SummaryRequest) :
    SummaryResponse :=
  let r := normBlocks (parsed.blocks.take 8) 0
  { unit_title := pyOrStr parsed.unit_title (pyOrOpt request.chapter_title "Learning Unit"),
    blocks := r.1,
    visual_slots_used := r.2,
    cached := false,
    notes :=
      { compression_applied := (dictGet parsed.notes "compression_applied").getD false,
        long_chapter_handled := (dictGet parsed.notes "long_chapter_handled").getD false,
        context_used_only_for_continuity := true } }

/-! ## Fallback and orchestrator (`backend/src/api/generate_summary.py`) -/

/-- `_create_fallback_response`: a minimal valid response synthesized from the
request; `error_msg` is only logged and does not influence the result. -/
def create_fallback_response (request : SummaryRequest) (error_msg : String) :
    SummaryResponse :=
  let text_preview :=
    pyStrip (request.text_chunk.take 300) ++
      (if request.text_chunk.length > 300 then "..." else "")
  { unit_title := pyOrOpt request.chapter_title "Chapter Summary",
    blocks :=
      [{ type := BlockType.coreIdea,
         slide_title := "", headline := "", body := "",
         text := "This chapter covers: " ++ text_preview,
         lyric_lines := [], image_hint := false, image_prompt := "" },
       { type := BlockType.insight,
         slide_title := "", headline := "", body := "",
         text := "AI summary generation encountered an issue. Please try again or continue reading.",
         lyric_lines := [], image_hint := false, image_prompt := "" },
       { type := BlockType.takeaway,
         slide_title := "", headline := "", body := "",
         text := "Consider reviewing the full chapter for complete understanding.",
         lyric_lines := [], image_hint := false, image_prompt := "" }],
    visual_slots_used := 0,
    cached := false,
    notes :=
      { compression_applied := false,
        long_chapter_handled := false,
        context_used_only_for_continuity := true } }

/-- The outcome of `gemini.generate_summary(request)` as the orchestrator sees
it: either a parsed response, or a raised exception (API error, empty output,
or the `ValueError` from response parsing — the orchestrator treats every
exception the same way, by falling back). -/
inductive GenOutcome where
  | ok (response : SummaryResponse)
  | error (msg : String)

/-- The `generate_summary` endpoint handler: check cache; on hit return; on
miss invoke the generator; on exception return the fallback (without storing);
on success substitute the fallback when fewer than 3 blocks survived, then
store whatever response resulted and return it. -/
def generate_summary (gen : GenOutcome) (now ttl_seconds : Nat)
    (request : SummaryRequest) (s : CacheState) : SummaryResponse × CacheState :=
  let cached := CacheService.get now request s
  match cached.1 with
  | some response => (response, cached.2)
  | none =>
    match gen with
    | .error msg => (create_fallback_response request msg, cached.2)
    | .ok generated =>
      let response :=
        if generated.blocks.length < 3 then
          create_fallback_response request "Insufficient content generated"
        else generated
      (response, CacheService.store now ttl_seconds request response cached.2)

/-! ## Concrete inputs used to instantiate the theorems -/

/-- A plain valid request (113-character chunk, already in stripped form). -/
def reqA : SummaryRequest :=
  { book_id := some "book-1", chapter_title := some "Chapter One",
    text_chunk := "The caravan reached the river crossing at dawn and the guide counted the wagons twice before signalling the rest.",
    mode := SummaryMode.chapter, prev_context := none, next_context := none }

/-- A minimal content block. -/
def blockA : ContentBlock :=
  { type := BlockType.insight, slide_title := "", headline := "", body := "b",
    text := "b", lyric_lines := [], image_hint := false, image_prompt := "" }

/-- Default generation notes. -/
def notesA : GenerationNotes :=
  { compression_applied := false, long_chapter_handled := false,
    context_used_only_for_continuity := true }

/-- A stored response. -/
def respA : SummaryResponse :=
  { unit_title := "T", blocks := [blockA], visual_slots_used := 0,
    cached := false, notes := notesA }

/-- A generated response with only two blocks (sparse result). -/
def resp2blocks : SummaryResponse :=
  { unit_title := "U", blocks := [blockA, blockA], visual_slots_used := 0,
    cached := false, notes := notesA }

/-- An entry that expired at time 5. -/
def entryExpired : CacheEntry :=
  { data := respA, created_at := 0, expires_at := 5, hit_count := 0 }

/-- A cache state holding only the expired entry under the key of `reqA`. -/
def sExpired : CacheState :=
  { cache := [(CacheService.generate_key reqA, entryExpired)],
    hits := 3, misses := 4, stores := 2, evictions := 1 }

/-- A raw block requesting an image slot. -/
def gBlockHint : GeminiOutputBlock :=
  { type := "scene", slide_title := "S", headline := "H", body := "B", text := "",
    lyric_lines := [], image_hint := true, image_prompt := "P" }

/-- A raw block not requesting an image slot. -/
def gBlockPlain : GeminiOutputBlock :=
  { type := "quote", slide_title := "Q", headline := "H2", body := "B2", text := "",
    lyric_lines := [], image_hint := false, image_prompt := "" }

/-- A raw output whose first three blocks request images. -/
def gOutW : GeminiOutput :=
  { unit_title := "U", blocks := [gBlockHint, gBlockHint, gBlockHint, gBlockPlain],
    visual_slots_used := 0, notes := [] }

/-- A raw output with 10 blocks where only the last three request images: more
than 2 requests overall, but after truncation to 8 only one survives. -/
def gOutLate : GeminiOutput :=
  { unit_title := "U",
    blocks := [gBlockPlain, gBlockPlain, gBlockPlain, gBlockPlain, gBlockPlain,
               gBlockPlain, gBlockPlain, gBlockHint, gBlockHint, gBlockHint],
    visual_slots_used := 0, notes := [] }

/-- A raw block with an unrecognized free-text type tag. -/
def gUnkBlock : GeminiOutputBlock :=
  { type := "mystery", slide_title := "M", headline := "", body := "B3", text := "",
    lyric_lines := [], image_hint := false, image_prompt := "" }

/-- A raw output whose first block carries the unrecognized tag. -/
def gOutUnknown : GeminiOutput :=
  { unit_title := "U", blocks := [gUnkBlock, gBlockPlain, gBlockPlain],
    visual_slots_used := 0, notes := [] }

/-- A 1001-character chunk: 500 times a, one x, 500 times b. -/
def reqLong1 : SummaryRequest :=
  { book_id := some "b", chapter_title := some "c",
    text_chunk := String.mk (List.replicate 500 'a' ++ 'x' :: List.replicate 500 'b'),
    mode := SummaryMode.chapter, prev_context := none, next_context := none }

/-- A distinct 1002-character chunk with the same first and last 500
characters as `reqLong1`. -/
def reqLong2 : SummaryRequest :=
  { book_id := some "b", chapter_title := some "c",
    text_chunk := String.mk (List.replicate 500 'a' ++ 'y' :: 'z' :: List.replicate 500 'b'),
    mode := SummaryMode.chapter, prev_context := none, next_context := none }

/-- A valid 400-character chunk (no leading/trailing whitespace) whose
300-character prefix ends in a long run of spaces. -/
def reqFall : SummaryRequest :=
  { book_id := none, chapter_title := none,
    text_chunk := String.mk (List.replicate 150 'a' ++ List.replicate 150 ' '
      ++ List.replicate 100 'b'),
    mode := SummaryMode.chapter, prev_context := none, next_context := none }

/-! ## Helper lemmas: dict model -/

theorem dictGet_insert_self {β : Type} (d : List (String × β)) (k : String) (v : β) :
    dictGet (dictInsert d k v) k = some v := by
  induction d with
  | nil => simp [dictInsert, dictGet]
  | cons kv rest ih =>
    obtain ⟨k', v'⟩ := kv
    by_cases h : k' = k
    · simp [dictInsert, dictGet, h]
    · simp [dictInsert, dictGet, h, ih]

theorem dictGet_eq_none_of_not_mem {β : Type} (d : List (String × β)) (k : String)
    (h : k ∉ d.map Prod.fst) : dictGet d k = none := by
  induction d with
  | nil => simp [dictGet]
  | cons kv rest ih =>
    obtain ⟨k', v'⟩ := kv
    simp only [List.map_cons, List.mem_cons, not_or] at h
    have hne : ¬ k' = k := fun he => h.1 he.symm
    simp only [dictGet, if_neg hne]
    exact ih h.2

theorem dictGet_delete_self {β : Type} (d : List (String × β)) (k : String)
    (hwf : DictWF d) : dictGet (dictDelete d k) k = none := by
  induction d with
  | nil => simp [dictDelete, dictGet]
  | cons kv rest ih =>
    obtain ⟨k', v'⟩ := kv
    simp only [DictWF, List.map_cons, List.nodup_cons] at hwf
    by_cases h : k' = k
    · subst h
      simp only [dictDelete, if_pos rfl]
      exact dictGet_eq_none_of_not_mem rest k' hwf.1
    · simp only [dictDelete, if_neg h, dictGet, if_neg h]
      exact ih hwf.2

theorem dictGet_filter {β : Type} (d : List (String × β)) (k : String) (v : β)
    (p : String × β → Bool) (hg : dictGet d k = some v) (hp : p (k, v) = true) :
    dictGet (d.filter p) k = some v := by
  induction d with
  | nil => simp [dictGet] at hg
  | cons kv rest ih =>
    obtain ⟨k', v'⟩ := kv
    by_cases h : k' = k
    · subst h
      simp [dictGet] at hg
      subst hg
      simp only [List.filter_cons, hp, if_pos rfl]
      simp [dictGet]
    · simp only [dictGet, if_neg h] at hg
      simp only [List.filter_cons]
      by_cases hpk : p (k', v') = true
      · simp only [hpk, if_pos rfl, dictGet, if_neg h]
        exact ih hg
      · simp only [hpk]
        simp only [Bool.false_eq_true, if_false]
        exact ih hg

theorem dictGet_none_filter {β : Type} (d : List (String × β)) (k : String)
    (p : String × β → Bool) (hg : dictGet d k = none) :
    dictGet (d.filter p) k = none := by
  induction d with
  | nil => simp [dictGet]
  | cons kv rest ih =>
    obtain ⟨k', v'⟩ := kv
    by_cases h : k' = k
    · simp [dictGet, h] at hg
    · simp only [dictGet, if_neg h] at hg
      simp only [List.filter_cons]
      by_cases hpk : p (k', v') = true
      · simp only [hpk, if_pos rfl, dictGet, if_neg h]
        exact ih hg
      · simp only [hpk, Bool.false_eq_true, if_false]
        exact ih hg

/-! ## Helper lemmas: the normalization loop -/

theorem normOne_image_hint (b : GeminiOutputBlock) (al : Bool) :
    (normOne b al).image_hint = al := rfl

theorem normBlocks_length (bs : List GeminiOutputBlock) (c : Nat) :
    (normBlocks bs c).1.length = bs.length := by
  induction bs generalizing c with
  | nil => simp [normBlocks]
  | cons b rest ih =>
    simp only [normBlocks]
    by_cases h : b.image_hint = true ∧ c < 2
    · rw [if_pos h]
      simp [ih]
    · rw [if_neg h]
      simp [ih]

theorem normBlocks_snd_eq_countP (bs : List GeminiOutputBlock) (c : Nat) :
    (normBlocks bs c).2 = c + (normBlocks bs c).1.countP (fun b => b.image_hint) := by
  induction bs generalizing c with
  | nil => simp [normBlocks]
  | cons b rest ih =>
    simp only [normBlocks]
    by_cases h : b.image_hint = true ∧ c < 2
    · rw [if_pos h]
      rw [List.countP_cons]
      rw [normOne_image_hint]
      rw [if_pos rfl]
      rw [ih (c + 1)]
      omega
    · rw [if_neg h]
      rw [List.countP_cons]
      rw [normOne_image_hint]
      rw [if_neg (by simp)]
      rw [ih c]
      omega

theorem normBlocks_snd_min (bs : List GeminiOutputBlock) (c : Nat) :
    (normBlocks bs c).2 = min (c + bs.countP (fun b => b.image_hint)) (max c 2) := by
  induction bs generalizing c with
  | nil =>
    simp only [normBlocks, List.countP_nil]
    omega
  | cons b rest ih =>
    simp only [normBlocks]
    rw [List.countP_cons]
    by_cases h : b.image_hint = true ∧ c < 2
    · rw [if_pos h]
      rw [ih (c + 1)]
      rw [h.1]
      rw [if_pos rfl]
      have hc := h.2
      omega
    · rw [if_neg h]
      rw [ih c]
      rcases Bool.eq_false_or_eq_true b.image_hint with hb | hb
      · have hc : ¬ c < 2 := fun hlt => h ⟨hb, hlt⟩
        rw [hb]
        rw [if_pos rfl]
        omega
      · rw [hb]
        simp

theorem normBlocks_get? (bs : List GeminiOutputBlock) (c i : Nat)
    (rb : GeminiOutputBlock) (hr : bs.get? i = some rb) :
    (normBlocks bs c).1.get? i =
      some (normOne rb
        (rb.image_hint && decide (c + (bs.take i).countP (fun b => b.image_hint) < 2))) := by
  induction bs generalizing c i with
  | nil => simp at hr
  | cons b rest ih =>
    simp only [normBlocks]
    by_cases hb : b.image_hint = true ∧ c < 2
    · rw [if_pos hb]
      match i with
      | 0 =>
        simp only [List.get?_cons_zero, Option.some.injEq] at hr
        subst hr
        simp only [List.get?_cons_zero, List.take_zero, List.countP_nil, Option.some.injEq]
        rw [hb.1]
        rw [decide_eq_true (show c + 0 < 2 by omega)]
        simp
      | Nat.succ j =>
        simp only [List.get?_cons_succ] at hr
        simp only [List.get?_cons_succ]
        rw [ih (c + 1) j hr]
        have hcount : ((b :: rest).take (j + 1)).countP (fun b => b.image_hint)
            = (rest.take j).countP (fun b => b.image_hint) + 1 := by
          simp only [List.take_succ_cons, List.countP_cons, hb.1]
          simp
        rw [hcount]
        have hiff : (c + 1 + (rest.take j).countP (fun b => b.image_hint) < 2) ↔
            (c + ((rest.take j).countP (fun b => b.image_hint) + 1) < 2) := by omega
        rw [decide_eq_decide.mpr hiff]
    · rw [if_neg hb]
      match i with
      | 0 =>
        simp only [List.get?_cons_zero, Option.some.injEq] at hr
        subst hr
        simp only [List.get?_cons_zero, List.take_zero, List.countP_nil, Option.some.injEq]
        rcases Bool.eq_false_or_eq_true b.image_hint with hbt | hbf
        · have hc : ¬ c < 2 := fun hlt => hb ⟨hbt, hlt⟩
          rw [hbt]
          rw [decide_eq_false (show ¬ c + 0 < 2 by omega)]
          simp
        · rw [hbf]
          simp
      | Nat.succ j =>
        simp only [List.get?_cons_succ] at hr
        simp only [List.get?_cons_succ]
        rw [ih c j hr]
        rcases Bool.eq_false_or_eq_true b.image_hint with hbt | hbf
        · have hc : ¬ c < 2 := fun hlt => hb ⟨hbt, hlt⟩
          have hcount : ((b :: rest).take (j + 1)).countP (fun b => b.image_hint)
              = (rest.take j).countP (fun b => b.image_hint) + 1 := by
            simp only [List.take_succ_cons, List.countP_cons, hbt]
            simp
          rw [hcount]
          have hiff : (c + (rest.take j).countP (fun b => b.image_hint) < 2) ↔
              (c + ((rest.take j).countP (fun b => b.image_hint) + 1) < 2) := by omega
          rw [decide_eq_decide.mpr hiff]
        · have hcount : ((b :: rest).take (j + 1)).countP (fun b => b.image_hint)
              = (rest.take j).countP (fun b => b.image_hint) := by
            simp only [List.take_succ_cons, List.countP_cons, hbf]
            simp
          rw [hcount]

/-! ## Helper lemmas: stripping -/

theorem dropWhile_append_of_all {α : Type} (p : α → Bool) (w l : List α)
    (hw : ∀ a ∈ w, p a = true) : (w ++ l).dropWhile p = l.dropWhile p := by
  induction w with
  | nil => simp
  | cons a rest ih =>
    have ha : p a = true := hw a (List.mem_cons_self a rest)
    simp only [List.cons_append, List.dropWhile_cons, ha, if_pos rfl]
    exact ih (fun x hx => hw x (List.mem_cons_of_mem a hx))

theorem dropWhile_append_of_ne_nil {α : Type} (p : α → Bool) (l w : List α)
    (hl : l.dropWhile p ≠ []) : (l ++ w).dropWhile p = l.dropWhile p ++ w := by
  rw [List.dropWhile_append]
  rw [if_neg (by simpa using hl)]

theorem pyStripList_sandwich (w1 w2 l : List Char)
    (hw1 : ∀ c ∈ w1, isPySpace c = true) (hw2 : ∀ c ∈ w2, isPySpace c = true) :
    pyStripList (w1 ++ l ++ w2) = pyStripList l := by
  unfold pyStripList
  rw [List.append_assoc, dropWhile_append_of_all isPySpace w1 (l ++ w2) hw1]
  by_cases hl : l.dropWhile isPySpace = []
  · have hall : ∀ c ∈ l, isPySpace c = true := List.dropWhile_eq_nil_iff.mp hl
    rw [dropWhile_append_of_all isPySpace l w2 hall]
    rw [List.dropWhile_eq_nil_iff.mpr hw2]
    rw [hl]
  · rw [dropWhile_append_of_ne_nil isPySpace l w2 hl]
    rw [List.reverse_append]
    rw [dropWhile_append_of_all isPySpace w2.reverse (l.dropWhile isPySpace).reverse
      (fun c hc => hw2 c (List.mem_reverse.mp hc))]

theorem pyStrip_sandwich (w1 w2 : List Char) (core : String)
    (hw1 : ∀ c ∈ w1, isPySpace c = true) (hw2 : ∀ c ∈ w2, isPySpace c = true) :
    pyStrip (String.mk (w1 ++ core.data ++ w2)) = pyStrip core := by
  unfold pyStrip
  rw [pyStripList_sandwich w1 w2 core.data hw1 hw2]

/-! ## Helper lemmas: store and get -/

theorem store_dictGet (now ttl : Nat) (req : SummaryRequest)
    (resp : SummaryResponse) (s : CacheState) :
    dictGet (CacheService.store now ttl req resp s).cache (CacheService.generate_key req)
      = some { data := { resp with cached := false }, created_at := now,
               expires_at := now + ttl, hit_count := 0 } := by
  unfold CacheService.store
  by_cases hmod : (s.stores + 1) % 100 = 0
  · simp only [hmod, if_pos rfl, CacheService.cleanup_expired]
    apply dictGet_filter
    · exact dictGet_insert_self s.cache (CacheService.generate_key req) _
    · simp [CacheService.is_expired]
  · simp only [hmod, if_neg hmod]
    exact dictGet_insert_self s.cache (CacheService.generate_key req) _

theorem store_counters (now ttl : Nat) (req : SummaryRequest)
    (resp : SummaryResponse) (s : CacheState) :
    (CacheService.store now ttl req resp s).stores = s.stores + 1 ∧
    (CacheService.store now ttl req resp s).hits = s.hits ∧
    (CacheService.store now ttl req resp s).misses = s.misses := by
  unfold CacheService.store
  by_cases hmod : (s.stores + 1) % 100 = 0
  · simp [hmod, CacheService.cleanup_expired]
  · simp [hmod]

theorem get_hit_of_dictGet (now : Nat) (req : SummaryRequest) (s : CacheState)
    (entry : CacheEntry)
    (hd : dictGet s.cache (CacheService.generate_key req) = some entry)
    (hfresh : ¬ now > entry.expires_at) :
    (CacheService.get now req s).1 = some { entry.data with cached := true } ∧
    ((CacheService.get now req s).2).cache
      = dictInsert s.cache (CacheService.generate_key req)
          { entry with hit_count := entry.hit_count + 1 } ∧
    ((CacheService.get now req s).2).hits = s.hits + 1 := by
  unfold CacheService.get
  dsimp only
  rw [hd]
  simp only [CacheService.is_expired]
  rw [if_neg (by simpa using hfresh)]
  exact ⟨rfl, rfl, rfl⟩

theorem get_none_no_binding (now : Nat) (req : SummaryRequest) (s : CacheState)
    (hwf : DictWF s.cache) (h : (CacheService.get now req s).1 = none) :
    dictGet ((CacheService.get now req s).2).cache (CacheService.generate_key req) = none := by
  unfold CacheService.get at h ⊢
  dsimp only at h ⊢
  cases hd : dictGet s.cache (CacheService.generate_key req) with
  | none =>
    dsimp only at h ⊢
    rw [hd]
  | some entry =>
    rw [hd] at h
    dsimp only at h ⊢
    by_cases hexp : CacheService.is_expired now entry = true
    · rw [if_pos hexp]
      exact dictGet_delete_self s.cache (CacheService.generate_key req) hwf
    · rw [if_neg hexp] at h
      simp at h

theorem get_of_dictGet_none (now : Nat) (req : SummaryRequest) (s : CacheState)
    (hd : dictGet s.cache (CacheService.generate_key req) = none) :
    (CacheService.get now req s).1 = none ∧
    (CacheService.get now req s).2 = { s with misses := s.misses + 1 } := by
  unfold CacheService.get
  dsimp only
  rw [hd]
  exact ⟨rfl, rfl⟩

/-! ## Digest shape lemmas -/

theorem word8hex_length (w : Nat) : (word8hex w).length = 8 := rfl

theorem sha256hex_length (s : String) : (sha256hex s).length = 64 := by
  unfold sha256hex digestHex
  simp only [String.length_append, word8hex_length]

/-! ## Claims -/

/-- C4: key derivation is a pure function of (book_id, chapter_title, mode,
content): identical fields give identical keys; the key is the first 32 hex
characters of the 64-hex-character SHA-256 digest of the pipe-joined
components; and when both contents are longer than 1000 characters, agreement
on the first 500 and last 500 characters alone (with equal other fields)
already forces equal keys, even for distinct contents. -/
theorem C4_key_derivation (r1 r2 : SummaryRequest)
    (hb : r1.book_id = r2.book_id) (hc : r1.chapter_title = r2.chapter_title)
    (hm : r1.mode = r2.mode) :
    (r1.text_chunk = r2.text_chunk →
       CacheService.generate_key r1 = CacheService.generate_key r2) ∧
    CacheService.generate_key r1 = (sha256hex (CacheService.keyString r1)).take 32 ∧
    (sha256hex (CacheService.keyString r1)).length = 64 ∧
    (r1.text_chunk ≠ r2.text_chunk →
     r1.text_chunk.length > 1000 → r2.text_chunk.length > 1000 →
     r1.text_chunk.take 500 = r2.text_chunk.take 500 →
     r1.text_chunk.drop (r1.text_chunk.length - 500)
        = r2.text_chunk.drop (r2.text_chunk.length - 500) →
     CacheService.generate_key r1 = CacheService.generate_key r2) := by
  refine ⟨?_, rfl, sha256hex_length _, ?_⟩
  · intro ht
    unfold CacheService.generate_key CacheService.keyString
    rw [hb, hc, hm, ht]
  · intro _ h1 h2 hhead htail
    unfold CacheService.generate_key CacheService.keyString
    rw [hb, hc, hm]
    rw [if_pos h1, if_pos h2]
    rw [hhead, htail]

/-- C3: cache round-trip: storing a response and retrieving it at any time not
later than `now + ttl` returns the stored value with only the `cached` flag
flipped to true, while the copy held inside the store still carries
`cached = false` (with its hit counter now 1). -/
theorem C3_round_trip (now now2 ttl : Nat) (req : SummaryRequest)
    (resp : SummaryResponse) (s : CacheState) (h : now2 ≤ now + ttl) :
    (CacheService.get now2 req (CacheService.store now ttl req resp s)).1
        = some { resp with cached := true } ∧
    dictGet ((CacheService.get now2 req (CacheService.store now ttl req resp s)).2).cache
        (CacheService.generate_key req)
      = some { data := { resp with cached := false }, created_at := now,
               expires_at := now + ttl, hit_count := 1 } := by
  have hstore := store_dictGet now ttl req resp s
  have hfresh : ¬ now2 > now + ttl := by omega
  have hget := get_hit_of_dictGet now2 req (CacheService.store now ttl req resp s) _ hstore hfresh
  refine ⟨?_, ?_⟩
  · rw [hget.1]
  · rw [hget.2.1]
    rw [dictGet_insert_self]

/-- C5: a get for a present-but-expired entry (now strictly past `expires_at`)
deletes the entry, records one miss and one eviction, returns absent, and
leaves the hit (and store) counters untouched. -/
theorem C5_expired_get (now : Nat) (req : SummaryRequest) (s : CacheState)
    (entry : CacheEntry) (hwf : DictWF s.cache)
    (hin : dictGet s.cache (CacheService.generate_key req) = some entry)
    (hexp : now > entry.expires_at) :
    (CacheService.get now req s).1 = none ∧
    ((CacheService.get now req s).2).cache
        = dictDelete s.cache (CacheService.generate_key req) ∧
    dictGet ((CacheService.get now req s).2).cache (CacheService.generate_key req) = none ∧
    ((CacheService.get now req s).2).misses = s.misses + 1 ∧
    ((CacheService.get now req s).2).evictions = s.evictions + 1 ∧
    ((CacheService.get now req s).2).hits = s.hits ∧
    ((CacheService.get now req s).2).stores = s.stores := by
  have hred : CacheService.get now req s =
      (none,
        { s with
            cache := dictDelete s.cache (CacheService.generate_key req),
            misses := s.misses + 1,
            evictions := s.evictions + 1 }) := by
    unfold CacheService.get
    dsimp only
    rw [hin]
    dsimp only
    rw [if_pos (by simpa [CacheService.is_expired] using hexp)]
  rw [hred]
  exact ⟨rfl, rfl, dictGet_delete_self s.cache _ hwf, rfl, rfl, rfl, rfl⟩

/-- C6: a store writes an entry expiring at `now + ttl_seconds` whose payload
has `cached=false` baked in, overwrites any existing binding of the key,
increments the store counter, and runs the expiry sweep exactly when the new
store count is a multiple of 100, deleting every expired entry and counting
one eviction per deletion. -/
theorem C6_store (now ttl : Nat) (req : SummaryRequest)
    (resp : SummaryResponse) (s : CacheState) :
    dictGet (CacheService.store now ttl req resp s).cache (CacheService.generate_key req)
        = some { data := { resp with cached := false }, created_at := now,
                 expires_at := now + ttl, hit_count := 0 } ∧
    (CacheService.store now ttl req resp s).stores = s.stores + 1 ∧
    (CacheService.store now ttl req resp s).hits = s.hits ∧
    (CacheService.store now ttl req resp s).misses = s.misses ∧
    ((s.stores + 1) % 100 ≠ 0 →
       (CacheService.store now ttl req resp s).cache
           = dictInsert s.cache (CacheService.generate_key req)
               { data := { resp with cached := false }, created_at := now,
                 expires_at := now + ttl, hit_count := 0 } ∧
       (CacheService.store now ttl req resp s).evictions = s.evictions) ∧
    ((s.stores + 1) % 100 = 0 →
       (CacheService.store now ttl req resp s).cache
           = (dictInsert s.cache (CacheService.generate_key req)
               { data := { resp with cached := false }, created_at := now,
                 expires_at := now + ttl, hit_count := 0 }).filter
               (fun kv => ! CacheService.is_expired now kv.2) ∧
       (CacheService.store now ttl req resp s).evictions
           = s.evictions + ((dictInsert s.cache (CacheService.generate_key req)
               { data := { resp with cached := false }, created_at := now,
                 expires_at := now + ttl, hit_count := 0 }).filter
               (fun kv => CacheService.is_expired now kv.2)).length ∧
       ∀ kv ∈ (CacheService.store now ttl req resp s).cache, ¬ now > kv.2.expires_at) := by
  refine ⟨store_dictGet now ttl req resp s, (store_counters now ttl req resp s).1,
    (store_counters now ttl req resp s).2.1, (store_counters now ttl req resp s).2.2, ?_, ?_⟩
  · intro hmod
    unfold CacheService.store
    dsimp only
    rw [if_neg hmod]
    exact ⟨rfl, rfl⟩
  · intro hmod
    unfold CacheService.store
    dsimp only
    rw [if_pos hmod]
    unfold CacheService.cleanup_expired
    refine ⟨rfl, rfl, ?_⟩
    intro kv hkv
    have := List.mem_filter.mp hkv
    simpa [CacheService.is_expired] using this.2

/-- C9: stats reports the four counters and the entry count, with
`hit_rate_percent = hits / (hits + misses) × 100` rounded to two decimals when
any get was recorded, and 0 when none was. -/
theorem C9_stats (s : CacheState) :
    ((CacheService.get_stats s).hit_rate_percent =
       if s.hits + s.misses > 0 then
         pyRound2 ((s.hits : ℚ) / ((s.hits : ℚ) + (s.misses : ℚ)) * 100)
       else 0) ∧
    (s.hits + s.misses = 0 → (CacheService.get_stats s).hit_rate_percent = 0) ∧
    (CacheService.get_stats s).hits = s.hits ∧
    (CacheService.get_stats s).misses = s.misses ∧
    (CacheService.get_stats s).stores = s.stores ∧
    (CacheService.get_stats s).evictions = s.evictions ∧
    (CacheService.get_stats s).entries = s.cache.length := by
  have hzero : pyRound2 0 = 0 := by
    unfold pyRound2 roundHalfEven
    norm_num
  refine ⟨?_, ?_, rfl, rfl, rfl, rfl, rfl⟩
  · unfold CacheService.get_stats
    dsimp only
    by_cases h : s.hits + s.misses > 0
    · rw [if_pos h, if_pos h]
      congr 2
      push_cast
      ring
    · rw [if_neg h, if_neg h]
      exact hzero
  · intro h
    unfold CacheService.get_stats
    dsimp only
    rw [if_neg (by omega)]
    exact hzero

/-- C2 (amended): normalization always makes `visual_slots_used` equal to the
number of surviving blocks with `image_hint=true` and caps it at 2; when more
than 2 of the first 8 raw blocks request an image, exactly the first two such
blocks keep the hint (a block keeps it iff it requests it and fewer than 2
earlier kept blocks precede it), later ones are downgraded with their image
prompt cleared, and `visual_slots_used = 2`. -/
theorem C2_visual_cap (g : GeminiOutput) (req : SummaryRequest) :
    (parseGeminiResponse g req).visual_slots_used
        = (parseGeminiResponse g req).blocks.countP (fun b => b.image_hint) ∧
    (parseGeminiResponse g req).visual_slots_used ≤ 2 ∧
    (2 < (g.blocks.take 8).countP (fun b => b.image_hint) →
       (parseGeminiResponse g req).visual_slots_used = 2) ∧
    (∀ i rb, (g.blocks.take 8).get? i = some rb →
       ((parseGeminiResponse g req).blocks.get? i
           = some (normOne rb (rb.image_hint &&
               decide (((g.blocks.take 8).take i).countP (fun b => b.image_hint) < 2))) ∧
        (rb.image_hint = false ∨
            ¬ ((g.blocks.take 8).take i).countP (fun b => b.image_hint) < 2 →
          ∃ cb, (parseGeminiResponse g req).blocks.get? i = some cb ∧
            cb.image_hint = false ∧ cb.image_prompt = ""))) := by
  refine ⟨?_, ?_, ?_, ?_⟩
  · unfold parseGeminiResponse
    dsimp only
    rw [normBlocks_snd_eq_countP]
    omega
  · unfold parseGeminiResponse
    dsimp only
    rw [normBlocks_snd_min]
    omega
  · intro hcount
    unfold parseGeminiResponse
    dsimp only
    rw [normBlocks_snd_min]
    omega
  · intro i rb hrb
    have hmain := normBlocks_get? (g.blocks.take 8) 0 i rb hrb
    have hmain0 : (normBlocks (g.blocks.take 8) 0).1.get? i
        = some (normOne rb (rb.image_hint &&
            decide (((g.blocks.take 8).take i).countP (fun b => b.image_hint) < 2))) := by
      simpa using hmain
    refine ⟨hmain0, ?_⟩
    intro hoff
    refine ⟨normOne rb (rb.image_hint &&
        decide (((g.blocks.take 8).take i).countP (fun b => b.image_hint) < 2)), hmain0, ?_, ?_⟩
    · rcases hoff with hfalse | hcap
      · rw [hfalse]
        rfl
      · rw [decide_eq_false hcap]
        simp [normOne_image_hint]
    · rcases hoff with hfalse | hcap
      · rw [hfalse]
        rfl
      · rw [decide_eq_false hcap]
        simp [normOne]

/-- C8: normalization keeps at most the first 8 raw blocks in their original
order (block `i` of the result is the conversion of raw block `i`), and any
block whose free-text tag matches no `BlockType` value is mapped to the
default `insight` category instead of failing. -/
theorem C8_truncate_and_default (g : GeminiOutput) (req : SummaryRequest) :
    (parseGeminiResponse g req).blocks.length = min 8 g.blocks.length ∧
    (parseGeminiResponse g req).blocks.length ≤ 8 ∧
    (∀ i rb, (g.blocks.take 8).get? i = some rb →
       ∃ cb, (parseGeminiResponse g req).blocks.get? i = some cb ∧
         cb.type = (blockTypeOfString rb.type).getD BlockType.insight ∧
         cb.body = pyOrStr rb.body (pyOrStr rb.text "") ∧
         (blockTypeOfString rb.type = none → cb.type = BlockType.insight)) := by
  have hlen : (parseGeminiResponse g req).blocks.length = min 8 g.blocks.length := by
    unfold parseGeminiResponse
    dsimp only
    rw [normBlocks_length]
    exact List.length_take 8 g.blocks
  refine ⟨hlen, by omega, ?_⟩
  intro i rb hrb
  have hmain := normBlocks_get? (g.blocks.take 8) 0 i rb hrb
  refine ⟨normOne rb (rb.image_hint &&
      decide (0 + ((g.blocks.take 8).take i).countP (fun b => b.image_hint) < 2)),
    hmain, rfl, rfl, ?_⟩
  intro hnone
  unfold normOne
  dsimp only
  rw [hnone]
  rfl

/-- C10: request validation replaces `text_chunk` with its stripped form and
rejects exactly when the stripped form has fewer than 100 characters; two
chunks that differ only by leading/trailing whitespace around the same core
validate identically, so every downstream consumer sees the same stripped
content for both. -/
theorem C10_validator (v : String) (core : String) (w1 w2 w3 w4 : List Char)
    (hw1 : ∀ c ∈ w1, isPySpace c = true) (hw2 : ∀ c ∈ w2, isPySpace c = true)
    (hw3 : ∀ c ∈ w3, isPySpace c = true) (hw4 : ∀ c ∈ w4, isPySpace c = true) :
    (100 ≤ (pyStrip v).length → validate_text_chunk v = Except.ok (pyStrip v)) ∧
    ((pyStrip v).length < 100 → ∀ t, validate_text_chunk v ≠ Except.ok t) ∧
    validate_text_chunk (String.mk (w1 ++ core.data ++ w2))
        = validate_text_chunk (String.mk (w3 ++ core.data ++ w4)) ∧
    (∀ t1 t2, validate_text_chunk (String.mk (w1 ++ core.data ++ w2)) = Except.ok t1 →
       validate_text_chunk (String.mk (w3 ++ core.data ++ w4)) = Except.ok t2 →
       t1 = t2 ∧ t1 = pyStrip core) := by
  have hs1 := pyStrip_sandwich w1 w2 core hw1 hw2
  have hs2 := pyStrip_sandwich w3 w4 core hw3 hw4
  have hsame : validate_text_chunk (String.mk (w1 ++ core.data ++ w2))
      = validate_text_chunk (String.mk (w3 ++ core.data ++ w4)) := by
    unfold validate_text_chunk
    rw [hs1, hs2]
  refine ⟨?_, ?_, hsame, ?_⟩
  · intro h
    unfold validate_text_chunk
    dsimp only
    rw [if_neg (by omega)]
  · intro h t
    unfold validate_text_chunk
    dsimp only
    rw [if_pos h]
    simp
  · intro t1 t2 h1 h2
    have hok1 : t1 = pyStrip core := by
      unfold validate_text_chunk at h1
      dsimp only at h1
      rw [hs1] at h1
      by_cases hlen : (pyStrip core).length < 100
      · rw [if_pos hlen] at h1
        simp at h1
      · rw [if_neg hlen] at h1
        exact (Except.ok.inj h1).symm
    have hok2 : t2 = pyStrip core := by
      unfold validate_text_chunk at h2
      dsimp only at h2
      rw [hs2] at h2
      by_cases hlen : (pyStrip core).length < 100
      · rw [if_pos hlen] at h2
        simp at h2
      · rw [if_neg hlen] at h2
        exact (Except.ok.inj h2).symm
    exact ⟨hok1.trans hok2.symm, hok1⟩

theorem get_preserves_stores (now : Nat) (req : SummaryRequest) (s : CacheState) :
    ((CacheService.get now req s).2).stores = s.stores := by
  unfold CacheService.get
  dsimp only
  cases hd : dictGet s.cache (CacheService.generate_key req) with
  | none => rfl
  | some entry =>
    dsimp only
    by_cases hexp : CacheService.is_expired now entry = true
    · rw [if_pos hexp]
    · rw [if_neg hexp]

theorem create_fallback_response_const (req : SummaryRequest) (m1 m2 : String) :
    create_fallback_response req m1 = create_fallback_response req m2 := by
  unfold create_fallback_response
  rfl

/-- C7 (amended): the fallback is a deterministic function of the request
alone (the error message does not influence it, and two orchestrator runs
with a failing generator and the same request return the same value); its
title is the supplied chapter title (or "Chapter Summary" when absent), it has
exactly three blocks, the first block's text carries the whitespace-stripped
first 300 characters of the content followed by an ellipsis when the content
exceeds 300 characters, and `visual_slots_used = 0`. -/
theorem C7_fallback (req : SummaryRequest) (m1 m2 : String) (now1 now2 ttl1 ttl2 : Nat)
    (s1 s2 : CacheState)
    (h1 : (CacheService.get now1 req s1).1 = none)
    (h2 : (CacheService.get now2 req s2).1 = none) :
    (generate_summary (GenOutcome.error m1) now1 ttl1 req s1).1
        = (generate_summary (GenOutcome.error m2) now2 ttl2 req s2).1 ∧
    create_fallback_response req m1 = create_fallback_response req m2 ∧
    (∀ t, req.chapter_title = some t → t ≠ "" →
        (create_fallback_response req m1).unit_title = t) ∧
    (req.chapter_title = none →
        (create_fallback_response req m1).unit_title = "Chapter Summary") ∧
    (create_fallback_response req m1).blocks.length = 3 ∧
    (req.text_chunk.length > 300 →
      ((create_fallback_response req m1).blocks.map (fun b => b.text)).headI
        = "This chapter covers: " ++ (pyStrip (req.text_chunk.take 300) ++ "...")) ∧
    (create_fallback_response req m1).visual_slots_used = 0 := by
  have hrun1 : (generate_summary (GenOutcome.error m1) now1 ttl1 req s1).1
      = create_fallback_response req m1 := by
    unfold generate_summary
    dsimp only
    rw [h1]
  have hrun2 : (generate_summary (GenOutcome.error m2) now2 ttl2 req s2).1
      = create_fallback_response req m2 := by
    unfold generate_summary
    dsimp only
    rw [h2]
  refine ⟨?_, create_fallback_response_const req m1 m2, ?_, ?_, rfl, ?_, rfl⟩
  · rw [hrun1, hrun2]
    exact create_fallback_response_const req m1 m2
  · intro t ht hne
    unfold create_fallback_response
    dsimp only
    rw [ht]
    unfold pyOrOpt
    dsimp only
    rw [if_neg hne]
  · intro ht
    unfold create_fallback_response
    dsimp only
    rw [ht]
    rfl
  · intro hlen
    unfold create_fallback_response
    dsimp only
    rw [if_pos hlen]
    rfl

/-- C1 (amended): when the Generator raises (or its output fails to parse),
the orchestrator returns the fallback, stores nothing, and a later lookup for
that key is still a miss; but when generation succeeds with fewer than 3
blocks, the substituted fallback result IS stored under the request's key, and
a later lookup within the TTL returns it as a hit. -/
theorem C1_fallback_cache (now ttl : Nat) (req : SummaryRequest) (msg : String)
    (s : CacheState) (hwf : DictWF s.cache)
    (hmiss : (CacheService.get now req s).1 = none) :
    ((generate_summary (GenOutcome.error msg) now ttl req s).1
         = create_fallback_response req msg ∧
     (generate_summary (GenOutcome.error msg) now ttl req s).2.stores = s.stores ∧
     dictGet ((generate_summary (GenOutcome.error msg) now ttl req s).2).cache
         (CacheService.generate_key req) = none ∧
     (∀ now2, (CacheService.get now2 req
         ((generate_summary (GenOutcome.error msg) now ttl req s).2)).1 = none)) ∧
    (∀ generated : SummaryResponse, generated.blocks.length < 3 →
       (generate_summary (GenOutcome.ok generated) now ttl req s).1
           = create_fallback_response req "Insufficient content generated" ∧
       dictGet ((generate_summary (GenOutcome.ok generated) now ttl req s).2).cache
           (CacheService.generate_key req)
         = some { data := { create_fallback_response req "Insufficient content generated" with cached := false },
                  created_at := now, expires_at := now + ttl, hit_count := 0 } ∧
       (∀ now2, now2 ≤ now + ttl →
         (CacheService.get now2 req
             ((generate_summary (GenOutcome.ok generated) now ttl req s).2)).1
           = some { create_fallback_response req "Insufficient content generated" with cached := true })) := by
  have herr : generate_summary (GenOutcome.error msg) now ttl req s
      = (create_fallback_response req msg, (CacheService.get now req s).2) := by
    unfold generate_summary
    dsimp only
    rw [hmiss]
  constructor
  · refine ⟨by rw [herr], ?_, ?_, ?_⟩
    · rw [herr]
      exact get_preserves_stores now req s
    · rw [herr]
      exact get_none_no_binding now req s hwf hmiss
    · intro now2
      have hnone : dictGet ((generate_summary (GenOutcome.error msg) now ttl req s).2).cache
          (CacheService.generate_key req) = none := by
        rw [herr]
        exact get_none_no_binding now req s hwf hmiss
      exact (get_of_dictGet_none now2 req _ hnone).1
  · intro generated hlt
    have hok : generate_summary (GenOutcome.ok generated) now ttl req s
        = (create_fallback_response req "Insufficient content generated",
           CacheService.store now ttl req
             (create_fallback_response req "Insufficient content generated")
             (CacheService.get now req s).2) := by
      unfold generate_summary
      dsimp only
      rw [hmiss]
      dsimp only
      rw [if_pos hlt]
    have hstore := store_dictGet now ttl req
      (create_fallback_response req "Insufficient content generated")
      (CacheService.get now req s).2
    refine ⟨by rw [hok], ?_, ?_⟩
    · rw [hok]
      exact hstore
    · intro now2 hfresh
      have hget := get_hit_of_dictGet now2 req
        ((generate_summary (GenOutcome.ok generated) now ttl req s).2)
        { data := { create_fallback_response req "Insufficient content generated" with cached := false },
          created_at := now, expires_at := now + ttl, hit_count := 0 }
        (by rw [hok]; exact hstore) (by simpa using hfresh)
      rw [hget.1]

/-! ## Witnesses and counterexamples -/

theorem C2_counterexample :
    2 < gOutLate.blocks.countP (fun b => b.image_hint) ∧
    (parseGeminiResponse gOutLate reqA).visual_slots_used ≠ 2 := by
  constructor
  · decide
  · decide

theorem C2_visual_cap_witness :
    2 < (gOutW.blocks.take 8).countP (fun b => b.image_hint) ∧
    (parseGeminiResponse gOutW reqA).visual_slots_used = 2 :=
  ⟨by decide, (C2_visual_cap gOutW reqA).2.2.1 (by decide)⟩

theorem C8_truncate_and_default_witness :
    ∃ cb, (parseGeminiResponse gOutUnknown reqA).blocks.get? 0 = some cb ∧
      cb.type = BlockType.insight := by
  obtain ⟨cb, hcb, htype, hbody, hnone⟩ :=
    (C8_truncate_and_default gOutUnknown reqA).2.2 0 gUnkBlock (by decide)
  exact ⟨cb, hcb, hnone (by decide)⟩

theorem C9_stats_witness :
    (CacheService.get_stats CacheState.init).hit_rate_percent = 0 :=
  (C9_stats CacheState.init).2.1 rfl

theorem C6_store_witness :
    (CacheService.store 0 defaultTTL reqA respA CacheState.init).cache
        = dictInsert CacheState.init.cache (CacheService.generate_key reqA)
            { data := { respA with cached := false }, created_at := 0,
              expires_at := 0 + defaultTTL, hit_count := 0 } ∧
    (CacheService.store 0 defaultTTL reqA respA CacheState.init).evictions = 0 :=
  (C6_store 0 defaultTTL reqA respA CacheState.init).2.2.2.2.1 (by decide)

theorem C5_expired_get_witness :
    (CacheService.get 10 reqA sExpired).1 = none ∧
    ((CacheService.get 10 reqA sExpired).2).misses = 5 ∧
    ((CacheService.get 10 reqA sExpired).2).evictions = 2 ∧
    ((CacheService.get 10 reqA sExpired).2).hits = 3 := by
  have h := C5_expired_get 10 reqA sExpired entryExpired
    (by simp [DictWF, sExpired])
    (by simp [sExpired, dictGet])
    (by decide)
  exact ⟨h.1, h.2.2.2.1, h.2.2.2.2.1, h.2.2.2.2.2.1⟩

theorem C3_round_trip_witness :
    (CacheService.get 1000 reqA (CacheService.store 0 defaultTTL reqA respA CacheState.init)).1
      = some { respA with cached := true } :=
  (C3_round_trip 0 1000 defaultTTL reqA respA CacheState.init (by norm_num [defaultTTL])).1

theorem C1_fallback_cache_witness :
    (generate_summary (GenOutcome.error "boom") 0 86400 reqA CacheState.init).1
        = create_fallback_response reqA "boom" ∧
    (generate_summary (GenOutcome.ok resp2blocks) 0 86400 reqA CacheState.init).1
        = create_fallback_response reqA "Insufficient content generated" := by
  have h := C1_fallback_cache 0 86400 reqA "boom" CacheState.init
    (by simp [DictWF, CacheState.init]) rfl
  exact ⟨h.1.1, (h.2 resp2blocks (by decide)).1⟩

theorem C1_counterexample :
    (CacheService.get 1 reqA
        ((generate_summary (GenOutcome.ok resp2blocks) 0 86400 reqA CacheState.init).2)).1
      = some { create_fallback_response reqA "Insufficient content generated" with cached := true } := by
  have hred : ((generate_summary (GenOutcome.ok resp2blocks) 0 86400 reqA CacheState.init).2)
      = CacheService.store 0 86400 reqA
          (create_fallback_response reqA "Insufficient content generated")
          { CacheState.init with misses := 1 } := rfl
  have hstore := store_dictGet 0 86400 reqA
    (create_fallback_response reqA "Insufficient content generated")
    { CacheState.init with misses := 1 }
  have hget := get_hit_of_dictGet 1 reqA
    (CacheService.store 0 86400 reqA
      (create_fallback_response reqA "Insufficient content generated")
      { CacheState.init with misses := 1 })
    { data := { create_fallback_response reqA "Insufficient content generated" with cached := false },
      created_at := 0, expires_at := 0 + 86400, hit_count := 0 }
    hstore (by norm_num)
  rw [hred]
  rw [hget.1]

theorem C7_fallback_witness :
    (create_fallback_response reqA "a").unit_title = "Chapter One" ∧
    (create_fallback_response reqA "a").blocks.length = 3 ∧
    (create_fallback_response reqA "a").visual_slots_used = 0 := by
  have h := C7_fallback reqA "a" "b" 0 0 0 0 CacheState.init CacheState.init rfl rfl
  exact ⟨h.2.2.1 "Chapter One" rfl (by decide), h.2.2.2.2.1, h.2.2.2.2.2.2⟩

theorem C10_validator_witness :
    validate_text_chunk (String.mk ([' '] ++ reqA.text_chunk.data ++ [' ', '\n']))
      = validate_text_chunk (String.mk ([] ++ reqA.text_chunk.data ++ [' '])) :=
  (C10_validator "x" reqA.text_chunk [' '] [' ', '\n'] [] [' ']
    (by decide) (by decide) (by decide) (by decide)).2.2.1

theorem string_data_length (s : String) : s.data.length = s.length := rfl

theorem dropWhile_eq_self_of_head {α : Type} (p : α → Bool) (a : α) (l : List α)
    (h : p a = false) : List.dropWhile p (a :: l) = a :: l := by
  rw [List.dropWhile_cons, if_neg (by simp [h])]


theorem C4_key_derivation_witness :
    reqLong1.text_chunk ≠ reqLong2.text_chunk ∧
    CacheService.generate_key reqLong1 = CacheService.generate_key reqLong2 := by
  have h500 : ∀ l : List Char, List.take 500 (List.replicate 500 'a' ++ l)
      = List.replicate 500 'a' := by
    intro l
    have := List.take_left (List.replicate 500 'a') l
    rwa [List.length_replicate] at this
  have hdrop : ∀ (i : Nat) (l : List Char),
      List.drop (500 + i) (List.replicate 500 'a' ++ l) = List.drop i l := by
    intro i l
    have := @List.drop_append Char (List.replicate 500 'a') l i
    rwa [List.length_replicate] at this
  have hl1 : reqLong1.text_chunk.length = 1001 := by
    show (String.mk (List.replicate 500 'a' ++ 'x' :: List.replicate 500 'b')).length = 1001
    rw [String.length_mk, List.length_append, List.length_replicate, List.length_cons,
      List.length_replicate]
  have hl2 : reqLong2.text_chunk.length = 1002 := by
    show (String.mk (List.replicate 500 'a' ++ 'y' :: 'z' :: List.replicate 500 'b')).length = 1002
    rw [String.length_mk, List.length_append, List.length_replicate, List.length_cons,
      List.length_cons, List.length_replicate]
  have hne : reqLong1.text_chunk ≠ reqLong2.text_chunk := by
    intro he
    rw [he, hl2] at hl1
    exact absurd hl1 (by norm_num)
  have htake : reqLong1.text_chunk.take 500 = reqLong2.text_chunk.take 500 := by
    have hlists : List.take 500 reqLong1.text_chunk.data
        = List.take 500 reqLong2.text_chunk.data := by
      show List.take 500 (List.replicate 500 'a' ++ 'x' :: List.replicate 500 'b')
          = List.take 500 (List.replicate 500 'a' ++ 'y' :: 'z' :: List.replicate 500 'b')
      rw [h500, h500]
    rw [String.take_eq, String.take_eq, hlists]
  have htail : reqLong1.text_chunk.drop (reqLong1.text_chunk.length - 500)
      = reqLong2.text_chunk.drop (reqLong2.text_chunk.length - 500) := by
    rw [hl1, hl2]
    have hlists : List.drop (1001 - 500) reqLong1.text_chunk.data
        = List.drop (1002 - 500) reqLong2.text_chunk.data := by
      show List.drop (1001 - 500) (List.replicate 500 'a' ++ 'x' :: List.replicate 500 'b')
          = List.drop (1002 - 500) (List.replicate 500 'a' ++ 'y' :: 'z' :: List.replicate 500 'b')
      rw [show (1001 : Nat) - 500 = 500 + 1 by norm_num,
        show (1002 : Nat) - 500 = 500 + 2 by norm_num]
      rw [hdrop, hdrop]
      rfl
    rw [String.drop_eq, String.drop_eq, hlists]
  exact ⟨hne, (C4_key_derivation reqLong1 reqLong2 rfl rfl rfl).2.2.2 hne
    (by rw [hl1]; norm_num) (by rw [hl2]; norm_num) htake htail⟩

theorem C7_counterexample :
    reqFall.text_chunk.length > 300 ∧
    ¬ ((reqFall.text_chunk.take 300 ++ "...").data <:+:
       (((create_fallback_response reqFall "err").blocks.map
           (fun b : ContentBlock => b.text)).headI).data) := by
  have hA : List.replicate 150 'a' = 'a' :: List.replicate 149 'a' := by
    rw [show (150 : Nat) = 149 + 1 from rfl, List.replicate_succ]
  have hconsA : ∀ l : List Char,
      List.replicate 150 'a' ++ l = 'a' :: (List.replicate 149 'a' ++ l) := by
    intro l
    rw [hA, List.cons_append]
  have hlen400 : reqFall.text_chunk.length = 400 := by
    show (String.mk (List.replicate 150 'a' ++ List.replicate 150 ' '
        ++ List.replicate 100 'b')).length = 400
    rw [String.length_mk, List.length_append, List.length_append,
      List.length_replicate, List.length_replicate, List.length_replicate]
  have hgt : reqFall.text_chunk.length > 300 := by
    rw [hlen400]
    norm_num
  have hdata300 : (reqFall.text_chunk.take 300).data
      = List.replicate 150 'a' ++ List.replicate 150 ' ' := by
    rw [String.take_eq]
    show List.take 300 (List.replicate 150 'a' ++ List.replicate 150 ' '
        ++ List.replicate 100 'b') = List.replicate 150 'a' ++ List.replicate 150 ' '
    have := List.take_left (List.replicate 150 'a' ++ List.replicate 150 ' ')
      (List.replicate 100 'b')
    rwa [List.length_append, List.length_replicate, List.length_replicate,
      show (150 : Nat) + 150 = 300 by norm_num] at this
  have hstripL : pyStripList (List.replicate 150 'a' ++ List.replicate 150 ' ')
      = List.replicate 150 'a' := by
    unfold pyStripList
    have hfront : List.dropWhile isPySpace (List.replicate 150 'a' ++ List.replicate 150 ' ')
        = List.replicate 150 'a' ++ List.replicate 150 ' ' := by
      rw [hconsA]
      exact dropWhile_eq_self_of_head isPySpace 'a' _ (by decide)
    rw [hfront, List.reverse_append, List.reverse_replicate, List.reverse_replicate]
    have hws : ∀ c ∈ List.replicate 150 ' ', isPySpace c = true := by
      intro c hc
      rw [List.eq_of_mem_replicate hc]
      decide
    rw [dropWhile_append_of_all isPySpace (List.replicate 150 ' ')
      (List.replicate 150 'a') hws]
    have hback : List.dropWhile isPySpace (List.replicate 150 'a')
        = List.replicate 150 'a' := by
      rw [hA]
      exact dropWhile_eq_self_of_head isPySpace 'a' _ (by decide)
    rw [hback, List.reverse_replicate]
  have hps : pyStrip (reqFall.text_chunk.take 300) = String.mk (List.replicate 150 'a') := by
    unfold pyStrip
    rw [hdata300, hstripL]
  have hb : (((create_fallback_response reqFall "err").blocks.map
        (fun b : ContentBlock => b.text)).headI)
      = "This chapter covers: " ++ (pyStrip (reqFall.text_chunk.take 300) ++ "...") := by
    unfold create_fallback_response
    dsimp only [List.map, List.headI]
    rw [if_pos hgt]
  have htlen : (((create_fallback_response reqFall "err").blocks.map
        (fun b : ContentBlock => b.text)).headI).length = 174 := by
    rw [hb, hps, String.length_append, String.length_append,
      String.length_mk (List.replicate 150 'a'), List.length_replicate]
    decide
  have hpatlen : (reqFall.text_chunk.take 300 ++ "...").length = 303 := by
    rw [String.length_append]
    have htk : (reqFall.text_chunk.take 300).length = 300 := by
      rw [String.take_eq, String.length_mk, List.length_take]
      have hd : reqFall.text_chunk.data.length = 400 := by
        show (List.replicate 150 'a' ++ List.replicate 150 ' '
            ++ List.replicate 100 'b').length = 400
        rw [List.length_append, List.length_append, List.length_replicate,
          List.length_replicate, List.length_replicate]
      rw [hd]
      norm_num
    rw [htk]
    decide
  refine ⟨hgt, ?_⟩
  intro hinf
  have hle := List.IsInfix.length_le hinf
  rw [string_data_length, string_data_length, hpatlen, htlen] at hle
  exact absurd hle (by norm_num)
